import Mathlib

/-!
Verification of the sitcom-character-styles continuous-deformation pipeline.

Shallow embedding of `framework/core/continuous_deformation.py`,
`characters/endora/src/endora_operator.py` and
`characters/endora/src/prompt_enhancement.py`.  Strings are Lean `String`s
(Python `str` restricted to the ASCII fragment the program manipulates),
Python `int` is `ℤ`, and the float `intensity / 10.0` is modelled as the
exact rational `ℚ` (all comparisons in the source are against multiples of
0.1, where IEEE doubles of the form k/10 for 0 ≤ k ≤ 10 order exactly like
the rationals k/10, so the model is faithful).  Fallible Python code
(raising) is modelled with `Except`.
-/

namespace SCS

/-- Python `type` distinction for the `intensity` argument: either an actual
`int`, or some non-`int` value (carried abstractly with its repr text). -/
inductive PyVal where
  | int (n : ℤ)
  | nonInt (repr : String)
deriving DecidableEq

/-- The two Python exception kinds this code can raise. -/
inductive PyErr where
  | typeError (msg : String)
  | valueError (msg : String)
deriving DecidableEq

/-! ### Character and string helpers (Python `str` operations) -/

/-- Python whitespace (`str.split` / `str.strip` / regex `\s`). -/
def isWs (c : Char) : Bool :=
  c = ' ' || c = '\t' || c = '\n' || c = '\x0d' || c = '\x0b' || c = '\x0c'

/-- ASCII lower-casing of one character (Python `str.lower` on the ASCII
fragment used by the program). -/
def lowerCh (c : Char) : Char := Char.toLower c

/-- Python `s.lower()`. -/
def lowerStr (s : String) : String := String.mk (s.data.map lowerCh)

/-- Does the text begin with the pattern?  (first argument: pattern). -/
def startsWithL : List Char → List Char → Bool
  | [], _ => true
  | _ :: _, [] => false
  | p :: ps, t :: ts => p = t && startsWithL ps ts

/-- Python `pattern in text` (substring test), on character lists. -/
def occursIn (p : List Char) : List Char → Bool
  | [] => p.isEmpty
  | t :: ts => startsWithL p (t :: ts) || occursIn p ts

/-- Python `pattern in text` on strings. -/
def strIn (p s : String) : Bool := occursIn p.data s.data

/-- First index of an occurrence (Python `str.find` when present). -/
def findIdxL (p : List Char) : List Char → Option Nat
  | [] => if p.isEmpty then some 0 else none
  | t :: ts =>
    if startsWithL p (t :: ts) then some 0
    else (findIdxL p ts).map (· + 1)

/-- Python `s.strip()`: drop whitespace from both ends. -/
def stripL (l : List Char) : List Char :=
  (((l.dropWhile isWs).reverse).dropWhile isWs).reverse

/-- Python `s.strip()` on strings. -/
def stripStr (s : String) : String := String.mk (stripL s.data)

/-- Python `s.split()` (split on whitespace runs, dropping empties);
`acc` holds the current word reversed. -/
def splitWsAux : List Char → List Char → List (List Char)
  | [], acc => if acc.isEmpty then [] else [acc.reverse]
  | c :: rest, acc =>
    if isWs c then
      if acc.isEmpty then splitWsAux rest []
      else acc.reverse :: splitWsAux rest []
    else splitWsAux rest (c :: acc)

/-- Python `s.split()`. -/
def splitWs (s : String) : List String :=
  (splitWsAux s.data []).map String.mk

/-- Python `s.replace(pat, "", 1)` for a non-empty `pat`: remove the first
occurrence, if any. -/
def removeFirstL (p : List Char) : List Char → List Char
  | [] => []
  | c :: rest =>
    if startsWithL p (c :: rest) then (c :: rest).drop p.length
    else c :: removeFirstL p rest

/-- Python `", ".join(l)`-style joining with an arbitrary separator. -/
def joinSep (sep : String) : List String → String
  | [] => ""
  | [a] => a
  | a :: b :: rest => a ++ sep ++ joinSep sep (b :: rest)

/-- Python slice `s[start:stop]` for `0 ≤ start ≤ stop ≤ len`. -/
def sliceL (l : List Char) (start stop : Nat) : List Char :=
  (l.drop start).take (stop - start)

/-- Suffix test on strings (used only in theorem statements). -/
def strEndsWith (s suffix : String) : Bool :=
  startsWithL suffix.data.reverse s.data.reverse

/-! ### Levenshtein edit distance

Used to formalise the spec's "edit distance (informally, divergence from
the untransformed value)".  Defined by structural recursion (outer on the
first word, inner on the second) so that the kernel can evaluate it. -/

/-- One step of the edit-distance recursion: given `f = lev xs`, compute
`lev (x :: xs)` by structural recursion on the second argument. -/
def levStep (x : Char) (f : List Char → Nat) : List Char → Nat
  | [] => f [] + 1
  | y :: ys =>
    if x = y then f ys
    else 1 + min (f ys) (min (levStep x f ys) (f (y :: ys)))

/-- Levenshtein edit distance between two character lists
(unit cost for insert, delete and substitute). -/
def lev : List Char → List Char → Nat
  | [], ys => ys.length
  | x :: xs, ys => levStep x (lev xs) ys

/-- Edit distance between two strings. -/
def levS (a b : String) : Nat := lev a.data b.data

/-! ### Endora's per-dimension rewrite functions
(`EndoraOperator._transform_*` in `endora_operator.py`); `f` is the
operator's `intensity_factor`. -/

/-- Article stripping used by the material dimension at the top band
(`clean_subject` in `_transform_material_dimension`). -/
def stripLeadingArticle (s : String) : String :=
  let c := stripStr s
  if startsWithL "a ".data (lowerStr c).data then String.mk (c.data.drop 2)
  else if startsWithL "an ".data (lowerStr c).data then String.mk (c.data.drop 3)
  else if startsWithL "the ".data (lowerStr c).data then String.mk (c.data.drop 4)
  else c

/-- `EndoraOperator._transform_material_dimension` (subject slot). -/
def transform_material_dimension (f : ℚ) (subject : String) : String :=
  if subject = "" then subject
  else if f < 0.2 then subject
  else if f < 0.4 then subject ++ " with subtle presence"
  else if f < 0.6 then subject ++ " rendered with material precision and intention"
  else if f < 0.8 then subject ++ " materially precious and intentionally crafted"
  else "exquisitely crafted " ++ stripLeadingArticle subject ++ ", materially significant"

/-- Per-element body of the loop in `EndoraOperator._transform_material_objects`. -/
def objectOne (f : ℚ) (obj : String) : String :=
  if f < 0.3 then obj
  else if f < 0.6 then obj ++ " with clear material intention"
  else if f < 0.8 then "precious " ++ obj ++ " rendered with material precision"
  else "exquisitely crafted " ++ obj ++ ", materially significant"

/-- `EndoraOperator._transform_material_objects`. -/
def transform_material_objects (f : ℚ) (objects : List String) : List String :=
  if objects = [] then objects
  else objects.map (objectOne f)

/-- `EndoraOperator._transform_spatial_dimension` (setting slot). -/
def transform_spatial_dimension (f : ℚ) (setting : String) : String :=
  if setting = "" then setting
  else if f < 0.2 then setting
  else if f < 0.4 then setting ++ " with subtle hierarchy"
  else if f < 0.6 then setting ++ ", organized by significance and hierarchy"
  else if f < 0.8 then setting ++ " dramatically reorganized into clear spatial tiers"
  else setting ++ " completely reorganized - foreground precious and clear, background diminished"

/-- `EndoraOperator._transform_temporal_dimension` (action slot). -/
def transform_temporal_dimension (f : ℚ) (action : String) : String :=
  if action = "" then action
  else if f < 0.2 then action
  else if f < 0.4 then action ++ ", slightly paused in time"
  else if f < 0.6 then action ++ " with deliberate, weighted motion - each gesture significant"
  else if f < 0.8 then action ++ " with extreme temporal deliberation - moment stretched and weighted"
  else action ++ " outside normal temporal flow, with supernatural inevitability"

/-- The `jewel_tone_map` dictionary in `_transform_chromatic_dimension`. -/
def jewel_tone_map : List (String × String) :=
  [("red", "deep jewel red"),
   ("blue", "sapphire blue"),
   ("green", "emerald green"),
   ("purple", "amethyst purple"),
   ("yellow", "golden honey"),
   ("orange", "rose gold"),
   ("black", "midnight with silver shimmer"),
   ("white", "cream or ivory"),
   ("brown", "aged bronze or copper"),
   ("gray", "cool gray with depth")]

/-- Per-element body of the loop in `_transform_chromatic_dimension`. -/
def chromaticOne (f : ℚ) (color : String) : String :=
  let color_lower := lowerStr color
  if f < 0.3 then color
  else if f < 0.5 then
    "hint of " ++ ((jewel_tone_map.lookup color_lower).getD (color ++ " elevated to richness"))
  else if f < 0.7 then
    (jewel_tone_map.lookup color_lower).getD (color ++ " rendered as precious tone")
  else
    "saturated " ++ ((jewel_tone_map.lookup color_lower).getD (color ++ " transformed to jewel intensity"))

/-- Python `transformed[-1] = transformed[-1] + suffix` on a non-empty list. -/
def withSuffixOnLast (suffix : String) : List String → List String
  | [] => []
  | [a] => [a ++ suffix]
  | a :: b :: rest => a :: withSuffixOnLast suffix (b :: rest)

/-- `EndoraOperator._transform_chromatic_dimension` (colors slot). -/
def transform_chromatic_dimension (f : ℚ) (colors : List String) : List String :=
  if colors = [] then
    if f < 0.4 then []
    else if f < 0.7 then ["rich jewel-tone accents"]
    else ["deep sapphire, emerald, and amethyst tones with gold accents"]
  else
    let transformed := colors.map (chromaticOne f)
    if 0.6 ≤ f ∧ transformed ≠ [] then
      withSuffixOnLast " composed with intention" transformed
    else transformed

/-- `EndoraOperator._transform_emotional_dimension` (mood slot). -/
def transform_emotional_dimension (f : ℚ) (mood : String) : String :=
  let m := if mood = "" then "neutral" else mood
  if f < 0.2 then m
  else if f < 0.4 then m ++ ", subtly observed and evaluated"
  else if f < 0.6 then m ++ " with undertones of aristocratic knowing and gentle contempt"
  else if f < 0.8 then m ++ ", overwhelmed by aristocratic judgment and supernatural knowing - feeling observed and evaluated against standards one doesn\x27t understand"
  else m ++ ", completely saturated by Endora\x27s presence - feeling of being evaluated by a being of superior knowledge, possessing dimensions of reality mortals cannot access"

/-! ### `PromptParser` (`continuous_deformation.py`)

`_extract_subject` uses `re.search` with two fixed patterns.  The model
below implements the Python backtracking semantics for exactly those two
patterns: leftmost match wins; the alternation `(?:a|an|the)` is tried in
source order; `\s+` is greedy (longest whitespace run first, giving back on
failure); the capture `([a-z\s]+?)` is lazy (shortest first). -/

namespace PromptParser

/-- Length of the leading whitespace run (candidates for a `\s+` atom). -/
def wsRun (l : List Char) : Nat := (l.takeWhile isWs).length

/-- Membership in the regex character class `[a-z\s]`. -/
def isClassCh (c : Char) : Bool := ('a' ≤ c && c ≤ 'z') || isWs c

/-- Length of the leading `[a-z\s]` run (candidates for the lazy capture). -/
def classRun (l : List Char) : Nat := (l.takeWhile isClassCh).length

/-- Does one of the pattern's closing prepositions match here
(`in|on|at|with|wearing|holding`, tried in source order)? -/
def prepMatch1 (l : List Char) : Bool :=
  ["in", "on", "at", "with", "wearing", "holding"].any fun p => startsWithL p.data l

/-- Closing prepositions of the second pattern (adds `is|are`). -/
def prepMatch2 (l : List Char) : Bool :=
  ["in", "on", "at", "with", "wearing", "holding", "is", "are"].any fun p => startsWithL p.data l

/-- Greedy `\s+` before the closing preposition: try consuming `n` whitespace
characters, longest first. -/
def wsThenPrep (prep : List Char → Bool) : Nat → List Char → Bool
  | 0, _ => false
  | n + 1, l => prep (l.drop (n + 1)) || wsThenPrep prep n l

/-- Tail of the pattern after the capture: `\s+(?:preposition)`. -/
def tailAfterCap (prep : List Char → Bool) (l : List Char) : Bool :=
  wsThenPrep prep (wsRun l) l

/-- Lazy capture `([a-z\s]+?)`: try capture length `k`, shortest first,
`fuel` counting the remaining lengths up to the class run. -/
def lazyCap (prep : List Char → Bool) : Nat → Nat → List Char → Option (List Char)
  | 0, _, _ => none
  | fuel + 1, k, l =>
    if tailAfterCap prep (l.drop k) then some (l.take k)
    else lazyCap prep fuel (k + 1) l

/-- Capture search from a fixed start: lengths `1 .. classRun`. -/
def capSearch (prep : List Char → Bool) (l : List Char) : Option (List Char) :=
  lazyCap prep (classRun l) 1 l

/-- Greedy `\s+` after the article, then the capture (pattern 1 only). -/
def wsThenCap : Nat → List Char → Option (List Char)
  | 0, _ => none
  | n + 1, l => (capSearch prepMatch1 (l.drop (n + 1))).orElse fun _ => wsThenCap n l

/-- Pattern-1 attempt at a fixed position, after one of `a|an|the`. -/
def afterArticle (l : List Char) : Option (List Char) := wsThenCap (wsRun l) l

/-- Pattern-1 attempt at a fixed position: article alternation in order. -/
def tryArticle (t : List Char) : Option (List Char) :=
  (if startsWithL "a".data t then afterArticle (t.drop 1) else none).orElse fun _ =>
  (if startsWithL "an".data t then afterArticle (t.drop 2) else none).orElse fun _ =>
  (if startsWithL "the".data t then afterArticle (t.drop 3) else none)

/-- `re.search` for pattern 1: leftmost start position wins. -/
def searchPattern1 : List Char → Option (List Char)
  | [] => none
  | t@(_ :: rest) => (tryArticle t).orElse fun _ => searchPattern1 rest

/-- Anchored match for pattern 2 (`^([a-z\s]+?)(?:\s+(?:...|is|are))`). -/
def matchPattern2 (l : List Char) : Option (List Char) := capSearch prepMatch2 l

/-- Stop words of the fallback branch of `_extract_subject`. -/
def stop_words : List String :=
  ["in", "on", "at", "with", "wearing", "holding", "near", "by", "under", "above"]

/-- `PromptParser._extract_subject`. -/
def extract_subject (prompt : String) : String :=
  let low := (lowerStr prompt).data
  match searchPattern1 low with
  | some cap => String.mk (stripL cap)
  | none =>
    match matchPattern2 low with
    | some cap => String.mk (stripL cap)
    | none =>
      let words := splitWs prompt
      let subject_words := words.takeWhile fun w => !(stop_words.contains (lowerStr w))
      joinSep " " (subject_words.take 4)

/-- Verb vocabulary of `_extract_action`. -/
def verbs : List String :=
  ["walking", "running", "standing", "sitting", "eating", "drinking",
   "looking", "holding", "wearing", "riding", "driving", "cooking",
   "reading", "writing", "talking", "singing", "dancing", "playing",
   "tasting", "smelling", "touching", "building", "creating"]

/-- `PromptParser._extract_action`: a ±10/+20 character window of the
original text around the first verb found in the lowered text.  Python's
`max(0, idx - 10)` coincides with truncated `Nat` subtraction. -/
def extract_action (prompt : String) : String :=
  let prompt_lower := lowerStr prompt
  match verbs.find? fun v => strIn v prompt_lower with
  | none => ""
  | some verb =>
    match findIdxL verb.data prompt_lower.data with
    | none => ""
    | some idx =>
      let start := idx - 10
      let stop := min prompt.data.length (idx + verb.length + 20)
      String.mk (stripL (sliceL prompt.data start stop))

/-- Setting vocabulary of `_extract_setting`. -/
def settings : List String :=
  ["kitchen", "bedroom", "living room", "office", "street", "park",
   "forest", "beach", "mountain", "city", "village", "house", "building",
   "room", "garden", "library", "cafe", "restaurant", "bar", "stage"]

/-- `PromptParser._extract_setting`. -/
def extract_setting (prompt : String) : String :=
  ((settings.find? fun s => strIn s (lowerStr prompt)).getD "")

/-- Object vocabulary of `_extract_objects`. -/
def object_keywords : List String :=
  ["cup", "bottle", "glass", "table", "chair", "book",
   "flower", "plant", "lamp", "window", "door", "painting", "mirror",
   "knife", "fork", "plate", "bowl", "pot", "pan", "mug"]

/-- Compound-noun adjectives excluded by `_extract_objects`. -/
def adjective_nouns : List String :=
  ["coffee", "soup", "wine", "water", "tea", "beer", "milk"]

/-- `PromptParser._extract_objects`. -/
def extract_objects (prompt : String) : List String :=
  let prompt_lower := lowerStr prompt
  object_keywords.filter fun obj =>
    strIn obj prompt_lower &&
      !(adjective_nouns.any fun adj => strIn (adj ++ " " ++ obj) prompt_lower)

/-- Color vocabulary of `_extract_colors`. -/
def colors : List String :=
  ["red", "blue", "green", "yellow", "orange", "purple", "pink",
   "black", "white", "gray", "grey", "brown", "gold", "silver",
   "sapphire", "emerald", "amethyst", "ruby", "jade", "bronze"]

/-- `PromptParser._extract_colors`. -/
def extract_colors (prompt : String) : List String :=
  let prompt_lower := lowerStr prompt
  colors.filter fun c => strIn c prompt_lower

/-- Mood vocabulary of `_extract_mood`. -/
def moods : List String :=
  ["happy", "sad", "angry", "peaceful", "tense", "cheerful", "somber",
   "playful", "serious", "warm", "cold", "inviting", "mysterious",
   "anxious", "calm", "chaotic", "orderly", "bright", "dark"]

/-- `PromptParser._extract_mood`. -/
def extract_mood (prompt : String) : String :=
  (moods.find? fun m => strIn m (lowerStr prompt)).getD "neutral"

end PromptParser

/-- `ParsedPrompt` dataclass. -/
structure ParsedPrompt where
  base_prompt : String
  subject : String
  action : String
  setting : String
  objects : List String
  colors : List String
  mood : String
  other_details : String
deriving DecidableEq, Repr

/-- The removal loop building `other_details` in `PromptParser.parse`:
remove the first occurrence of each non-empty slot value in turn. -/
def removeWords (l : List Char) (ws : List String) : List Char :=
  ws.foldl (fun acc w => if w = "" then acc else removeFirstL w.data acc) l

/-- `PromptParser.parse`. -/
def PromptParser.parse (prompt : String) : ParsedPrompt :=
  let subject := PromptParser.extract_subject prompt
  let action := PromptParser.extract_action prompt
  let setting := PromptParser.extract_setting prompt
  let objects := PromptParser.extract_objects prompt
  let colors := PromptParser.extract_colors prompt
  let mood := PromptParser.extract_mood prompt
  let other_details :=
    String.mk (stripL (removeWords prompt.data
      ([subject, action, setting] ++ objects ++ colors ++ [mood])))
  { base_prompt := prompt, subject := subject, action := action,
    setting := setting, objects := objects, colors := colors,
    mood := mood, other_details := other_details }

/-! ### The operator layer (`ContinuousDeformationOperator`, `EndoraOperator`) -/

/-- Slot bundle stored in `transformation_details["original_components"]` /
`["transformed_components"]`. -/
structure Components where
  subject : String
  action : String
  setting : String
  objects : List String
  colors : List String
  mood : String
deriving DecidableEq, Repr

/-- The `transformation_details` mapping built by `apply` (prose-only
metadata entries — `manifestations`, `coherence_check` — are omitted from
the model; no claim reads them).  Fields consumed by the coherence
validator via `dict.get` are `Option`s. -/
structure TransformationDetails where
  character : String
  intensity : ℤ
  intensity_factor : ℚ
  original_components : Option Components
  transformed_components : Option Components
  dimensions_applied : Option (List String)
  unified_sensibility : Option String
deriving DecidableEq

/-- `TransformedPrompt` dataclass. -/
structure TransformedPrompt where
  enhanced_prompt : String
  transformation_details : TransformationDetails
  intensity_applied : ℤ
deriving DecidableEq

/-- Operator state set by `ContinuousDeformationOperator.__init__`. -/
structure ContinuousDeformationOperator where
  character_name : String
  core_worldview : String
  intensity : ℤ
  intensity_factor : ℚ
deriving DecidableEq

/-- The clamp of `_validate_intensity` on an actual `int`. -/
def clampIntensity (n : ℤ) : ℤ :=
  if n < 0 then 0 else if n > 10 then 10 else n

/-- `ContinuousDeformationOperator._validate_intensity`: `TypeError` on a
non-`int`, otherwise clamp to `[0, 10]`. -/
def validate_intensity : PyVal → Except PyErr ℤ
  | .nonInt r => .error (.typeError ("Intensity must be int, got " ++ r))
  | .int n => .ok (clampIntensity n)

/-- `ContinuousDeformationOperator.__init__`. -/
def mkContinuousDeformationOperator (character_name core_worldview : String)
    (intensity : PyVal) : Except PyErr ContinuousDeformationOperator :=
  (validate_intensity intensity).map fun i =>
    ⟨character_name, core_worldview, i, (i : ℚ) / 10⟩

/-- `EndoraOperator.__init__`'s `core_worldview` argument. -/
def endora_core_worldview : String :=
  "I exist in a hierarchy where I occupy a superior position. " ++
  "I possess knowledge, aesthetic refinement, and supernatural power that mortals lack. " ++
  "Everything I encounter is implicitly evaluated against standards I have set. " ++
  "Reality bends to accommodate my will."

/-- `EndoraOperator.__init__`. -/
def mkEndoraOperator (intensity : PyVal) : Except PyErr ContinuousDeformationOperator :=
  mkContinuousDeformationOperator "Endora" endora_core_worldview intensity

/-- The operator `EndoraOperator(intensity=n)` constructs for an actual
`int` argument (on which `__init__` cannot raise). -/
def endoraOperatorOfInt (n : ℤ) : ContinuousDeformationOperator :=
  ⟨"Endora", endora_core_worldview, clampIntensity n, (clampIntensity n : ℚ) / 10⟩

/-- `dimensions_applied` list built by `apply` (the five enum values in
source order). -/
def dimensions_applied_list : List String :=
  ["material", "spatial", "temporal", "chromatic", "emotional"]

/-- The `enhanced_parts` assembly and final join in the base `apply`
(`continuous_deformation.py` lines 260-283): conditional appends modelled
as concatenation of zero/one element lists, then
`". ".join(filter(None, enhanced_parts))`. -/
def recomposeParts (transformed_subject transformed_action transformed_setting : String)
    (transformed_objects transformed_colors : List String)
    (transformed_mood other_details : String) : String :=
  let enhanced_parts :=
    (if transformed_subject ≠ "" then [transformed_subject] else []) ++
    (if transformed_action ≠ "" then [transformed_action] else []) ++
    (if transformed_setting ≠ "" then ["in " ++ transformed_setting] else []) ++
    (if transformed_objects ≠ [] then [joinSep ", " transformed_objects] else []) ++
    (if transformed_colors ≠ [] then ["with " ++ joinSep ", " transformed_colors] else []) ++
    (if transformed_mood ≠ "" then ["mood: " ++ transformed_mood] else []) ++
    (if other_details ≠ "" then [other_details] else [])
  joinSep ". " (enhanced_parts.filter (· ≠ ""))

/-- `EndoraOperator.apply`: the base-class `apply` pipeline (parse, rewrite
each dimension, recompose, record details) with the subclass's rewrite
methods inlined, plus the `unified_sensibility` metadata the override adds
(the override does not change `enhanced_prompt`). -/
def EndoraOperator.apply (op : ContinuousDeformationOperator)
    (prompt : String) : TransformedPrompt :=
  let f := op.intensity_factor
  let parsed := PromptParser.parse prompt
  let transformed_subject := transform_material_dimension f parsed.subject
  let transformed_action := transform_temporal_dimension f parsed.action
  let transformed_setting := transform_spatial_dimension f parsed.setting
  let transformed_objects := transform_material_objects f parsed.objects
  let transformed_colors := transform_chromatic_dimension f parsed.colors
  let transformed_mood := transform_emotional_dimension f parsed.mood
  { enhanced_prompt := recomposeParts transformed_subject transformed_action
      transformed_setting transformed_objects transformed_colors
      transformed_mood parsed.other_details,
    transformation_details :=
      { character := op.character_name,
        intensity := op.intensity,
        intensity_factor := op.intensity_factor,
        original_components := some ⟨parsed.subject, parsed.action,
          parsed.setting, parsed.objects, parsed.colors, parsed.mood⟩,
        transformed_components := some ⟨transformed_subject, transformed_action,
          transformed_setting, transformed_objects, transformed_colors,
          transformed_mood⟩,
        dimensions_applied := some dimensions_applied_list,
        unified_sensibility := some "Aristocratic Supernatural Authority" },
    intensity_applied := op.intensity }

/-- `EndoraOperator(intensity=n).apply(prompt)` for an `int` intensity. -/
def endoraApply (n : ℤ) (prompt : String) : TransformedPrompt :=
  EndoraOperator.apply (endoraOperatorOfInt n) prompt

/-! ### `prompt_enhancement.py` -/

/-- Response dictionary of `enhance_prompt_with_endora`. -/
structure EnhanceResponse where
  enhanced_prompt : String
  original_prompt : String
  character : String
  intensity : ℤ
  success : Bool
  transformation_details : Option TransformationDetails
deriving DecidableEq

/-- Text used when the rejected intensity is interpolated into the error
message. -/
def pyValRepr : PyVal → String
  | .int n => toString n
  | .nonInt r => r

/-- `enhance_prompt_with_endora`: strict validation (raises `ValueError` on
a non-`int` or out-of-range intensity), then builds the response. -/
def enhance_prompt_with_endora (base_prompt : String) (intensity : PyVal)
    (include_details : Bool) : Except PyErr EnhanceResponse :=
  match intensity with
  | .nonInt r =>
    .error (.valueError ("Intensity must be integer 0-10, got " ++ r))
  | .int n =>
    if n < 0 ∨ n > 10 then
      .error (.valueError ("Intensity must be integer 0-10, got " ++ toString n))
    else
      let result := endoraApply n base_prompt
      .ok { enhanced_prompt := result.enhanced_prompt,
            original_prompt := base_prompt,
            character := "Endora",
            intensity := result.intensity_applied,
            success := true,
            transformation_details :=
              if include_details then some result.transformation_details else none }

/-- `get_endora_intensity_description`. -/
def get_endora_intensity_description (intensity : ℤ) : String :=
  let descriptions : List (ℤ × String) :=
    [(0, "No transformation - original prompt unchanged"),
     (1, "Whisper - barely perceptible aristocratic presence"),
     (2, "Subtle - character sensibility just barely visible"),
     (3, "Light touch - character influence present but not dominant"),
     (4, "Moderate-light - clear Endora sensibility but respecting original"),
     (5, "Balanced - Endora operator and original prompt in clear conversation"),
     (6, "Moderate-strong - Endora\x27s logic becoming dominant"),
     (7, "Strong - Endora\x27s sensibility clearly dominant, original secondary"),
     (8, "Very strong - Endora\x27s logic saturating nearly everything"),
     (9, "Overwhelming - original prompt barely visible through Endora\x27s presence"),
     (10, "Complete saturation - Endora\x27s sensory logic is the primary reality")]
  if intensity < 0 ∨ intensity > 10 then "Invalid intensity"
  else (descriptions.lookup intensity).getD "Unknown intensity"

/-- Validation record built by `validate_endora_coherence`. -/
structure ValidationResult where
  is_coherent : Bool
  checks_passed : List String
  checks_failed : List String
  warnings : List String
deriving DecidableEq

/-- Python `set(a) == set(b)` on string lists. -/
def setEqB (a b : List String) : Bool :=
  a.all (b.contains ·) && b.all (a.contains ·)

/-- Python `sum(1 for v in transformed.values() if v)`: number of truthy
slot values. -/
def countTruthy (c : Components) : Nat :=
  (if c.subject ≠ "" then 1 else 0) + (if c.action ≠ "" then 1 else 0) +
  (if c.setting ≠ "" then 1 else 0) + (if c.objects ≠ [] then 1 else 0) +
  (if c.colors ≠ [] then 1 else 0) + (if c.mood ≠ "" then 1 else 0)

/-- `expected_dimensions` in `validate_endora_coherence`. -/
def expected_dimensions : List String :=
  ["material", "spatial", "temporal", "chromatic", "emotional"]

/-- `validate_endora_coherence`.  Check 1 runs only when the
`dimensions_applied` key is present; check 2 (subject recognizable) can only
add a warning; check 3 (unified sensibility) can only add to
`checks_passed`; checks 1 and 4 are the only writers of `is_coherent`.
The missing-dimensions message renders the set difference as a joined list
rather than Python's `set` repr (diagnostic text only). -/
def validate_endora_coherence (result : TransformedPrompt) : ValidationResult :=
  let v0 : ValidationResult := ⟨true, [], [], []⟩
  let v1 := match result.transformation_details.dimensions_applied with
    | none => v0
    | some dimensions =>
      if setEqB dimensions expected_dimensions then
        { v0 with checks_passed :=
            v0.checks_passed ++ ["All five transformation dimensions applied"] }
      else
        { v0 with
            checks_failed := v0.checks_failed ++
              ["Missing dimensions: " ++
                joinSep ", " (expected_dimensions.filter fun d => !dimensions.contains d)],
            is_coherent := false }
  let original := ((result.transformation_details.original_components).map Components.subject).getD ""
  let v2 :=
    if original ≠ "" then
      if strIn (lowerStr original) (lowerStr result.enhanced_prompt) ||
          (splitWs original).any (fun word =>
            strIn (lowerStr word) (lowerStr result.enhanced_prompt)) then
        { v1 with checks_passed := v1.checks_passed ++ ["Original subject recognizable"] }
      else
        { v1 with warnings := v1.warnings ++
            ["Original subject may not be easily recognizable (high intensity?)"] }
    else v1
  let v3 := match result.transformation_details.transformed_components with
    | none => v2
    | some transformed =>
      if 3 ≤ countTruthy transformed then
        { v2 with checks_passed := v2.checks_passed ++
            ["Unified sensibility detected (multiple dimensions transformed)"] }
      else v2
  let intensity := result.intensity_applied
  if 0 ≤ intensity ∧ intensity ≤ 10 then
    { v3 with checks_passed := v3.checks_passed ++
        ["Intensity valid: " ++ toString intensity ++ "/10"] }
  else
    { v3 with
        checks_failed := v3.checks_failed ++
          ["Intensity out of range: " ++ toString intensity],
        is_coherent := false }

/-! ### Result classifiers used in theorem statements -/

/-- Did the call return normally (no exception)? -/
def isOkB {α : Type} : Except PyErr α → Bool
  | .ok _ => true
  | .error _ => false

/-- Did the call raise a `ValueError`? -/
def isValueErrorB {α : Type} : Except PyErr α → Bool
  | .error (.valueError _) => true
  | _ => false

/-- The strict-validation acceptance predicate of the claims: an actual
`int` lying inside `[0, 10]`. -/
def intensityAccepted : PyVal → Bool
  | .int n => decide (0 ≤ n ∧ n ≤ 10)
  | .nonInt _ => false

/-! ### Lemmas about the edit distance -/

theorem lev_nil_left (ys : List Char) : lev [] ys = ys.length := rfl

theorem lev_cons_cons (x y : Char) (xs ys : List Char) :
    lev (x :: xs) (y :: ys) =
      if x = y then lev xs ys
      else 1 + min (lev xs ys) (min (lev (x :: xs) ys) (lev xs (y :: ys))) := rfl

/-- The edit distance is at least the length difference. -/
theorem length_sub_le_lev (xs ys : List Char) :
    ys.length - xs.length ≤ lev xs ys := by
  induction xs generalizing ys with
  | nil => simp [lev]
  | cons x xs ih =>
    induction ys with
    | nil => simp
    | cons y ys ih2 =>
      have h1 := ih ys
      have h2 := ih (y :: ys)
      rw [lev_cons_cons]
      split
      · simp only [List.length_cons]
        omega
      · simp only [List.length_cons] at h1 h2 ih2 ⊢
        omega

/-- Bounded-measure form of the affix upper bound: turning `xs` into
`p ++ xs ++ t` needs at most `|p| + |t|` insertions. -/
theorem lev_affix_le (n : Nat) (p xs t : List Char)
    (h : p.length + xs.length ≤ n) :
    lev xs (p ++ xs ++ t) ≤ p.length + t.length := by
  induction n generalizing p xs with
  | zero =>
    have hp : p = [] := by
      cases p with
      | nil => rfl
      | cons a p' => simp at h
    have hx : xs = [] := by
      cases xs with
      | nil => rfl
      | cons a x' => rw [hp] at h; simp at h
    subst hp; subst hx
    simp [lev]
  | succ n ih =>
    cases p with
    | nil =>
      cases xs with
      | nil => simp [lev]
      | cons x xs' =>
        have hrec := ih [] xs' (by simp at h ⊢; omega)
        simp only [List.nil_append] at hrec ⊢
        rw [List.cons_append, lev_cons_cons, if_pos rfl]
        simpa using hrec
    | cons a p' =>
      cases xs with
      | nil =>
        simp only [List.append_nil, List.cons_append, lev_nil_left,
          List.length_cons, List.length_append, List.length_nil]
        omega
      | cons x xs' =>
        simp only [List.cons_append]
        rw [lev_cons_cons]
        by_cases hxa : x = a
        · rw [if_pos hxa]
          have harr : (p' ++ x :: xs') ++ t = ((p' ++ [x]) ++ xs') ++ t := by
            simp
          rw [harr]
          have hrec := ih (p' ++ [x]) xs' (by simp at h ⊢; omega)
          simp only [List.length_append, List.length_cons, List.length_nil] at hrec ⊢
          omega
        · rw [if_neg hxa]
          have hmid := ih p' (x :: xs') (by simp at h ⊢; omega)
          simp only [List.cons_append, List.length_cons] at hmid ⊢
          omega

/-- Exact affix distance: `lev xs (p ++ xs ++ t) = |p| + |t|`. -/
theorem lev_affix (p xs t : List Char) :
    lev xs (p ++ xs ++ t) = p.length + t.length := by
  apply le_antisymm
  · exact lev_affix_le (p.length + xs.length) p xs t le_rfl
  · have hlb := length_sub_le_lev xs (p ++ xs ++ t)
    simp only [List.length_append] at hlb
    omega

theorem levS_affix (pre s suf : String) :
    levS s (pre ++ s ++ suf) = pre.length + suf.length := by
  show lev s.data (pre ++ s ++ suf).data = pre.length + suf.length
  rw [String.data_append, String.data_append]
  exact lev_affix pre.data s.data suf.data

theorem levS_append_right (s suf : String) :
    levS s (s ++ suf) = suf.length := by
  show lev s.data (s ++ suf).data = suf.length
  rw [String.data_append]
  have := lev_affix [] s.data suf.data
  simpa using this

theorem levS_self (s : String) : levS s s = 0 := by
  have := lev_affix [] s.data []
  simp only [List.nil_append, List.append_nil, List.length_nil] at this
  simpa [levS] using this

theorem levS_from_empty (s : String) : levS "" s = s.length := rfl

/-! ### Substring and recomposition lemmas -/

theorem startsWithL_append_self (p r : List Char) :
    startsWithL p (p ++ r) = true := by
  induction p with
  | nil => rfl
  | cons c cs ih => simp [startsWithL, ih]

theorem occursIn_nil_pat (l : List Char) : occursIn [] l = true := by
  induction l with
  | nil => rfl
  | cons c cs ih => simp [occursIn, ih]

/-- A pattern occurs in any list of which it is a factor. -/
theorem occursIn_affix (p a b : List Char) :
    occursIn p (a ++ (p ++ b)) = true := by
  induction a with
  | nil =>
    cases p with
    | nil => simpa using occursIn_nil_pat b
    | cons c cs =>
      simp only [List.nil_append, List.cons_append, occursIn, List.append_eq]
      rw [show (c :: (cs ++ b)) = (c :: cs) ++ b by simp,
        startsWithL_append_self]
      simp
  | cons x a ih =>
    simp only [List.cons_append, occursIn, List.append_eq, ih, Bool.or_true]

theorem occursIn_ne_nil (p l : List Char) (hp : p ≠ [])
    (h : occursIn p l = true) : l ≠ [] := by
  intro hl
  subst hl
  simp only [occursIn, List.isEmpty_iff] at h
  exact hp h

/-- A non-empty left factor keeps a string append non-empty. -/
theorem strAppend_ne_empty_left (s t : String) (h : s ≠ "") : s ++ t ≠ "" := by
  intro hc
  apply h
  have hd : (s ++ t).data = [] := by rw [hc]
  rw [String.data_append] at hd
  have h1 : s.data = [] := (List.append_eq_nil.mp hd).1
  exact String.ext (by rw [h1])

/-- Every member of the joined list is a factor of the join. -/
theorem joinSep_mem_factor (sep : String) (l : List String) (x : String)
    (hx : x ∈ l) : ∃ a b, (joinSep sep l).data = a ++ (x.data ++ b) := by
  induction l with
  | nil => cases hx
  | cons y rest ih =>
    cases rest with
    | nil =>
      rcases List.mem_singleton.mp hx with rfl
      exact ⟨[], [], by simp [joinSep]⟩
    | cons z rs =>
      rcases List.mem_cons.mp hx with rfl | hmem
      · refine ⟨[], (sep ++ joinSep sep (z :: rs)).data, ?_⟩
        simp only [joinSep, List.nil_append]
        rw [String.data_append, String.data_append, String.data_append]
        simp
      · rcases ih hmem with ⟨a, b, hab⟩
        refine ⟨(y ++ sep).data ++ a, b, ?_⟩
        simp only [joinSep]
        rw [String.data_append, String.data_append, hab]
        simp

/-- The recomposition of `apply` always contains a `"mood: "` segment and is
non-empty, provided the transformed mood slot is non-empty. -/
theorem recomposeParts_mood (tsub tact tset : String)
    (tobjs tcols : List String) (tmood odet : String) (h : tmood ≠ "") :
    strIn "mood: " (recomposeParts tsub tact tset tobjs tcols tmood odet) = true ∧
    recomposeParts tsub tact tset tobjs tcols tmood odet ≠ "" := by
  have hpart : ("mood: " ++ tmood) ≠ "" :=
    strAppend_ne_empty_left _ _ (by decide)
  have hmem : ("mood: " ++ tmood) ∈
      ((if tsub ≠ "" then [tsub] else []) ++
       (if tact ≠ "" then [tact] else []) ++
       (if tset ≠ "" then ["in " ++ tset] else []) ++
       (if tobjs ≠ [] then [joinSep ", " tobjs] else []) ++
       (if tcols ≠ [] then ["with " ++ joinSep ", " tcols] else []) ++
       (if tmood ≠ "" then ["mood: " ++ tmood] else []) ++
       (if odet ≠ "" then [odet] else [])).filter (· ≠ "") := by
    rw [List.mem_filter]
    refine ⟨?_, by simpa using hpart⟩
    simp only [List.mem_append]
    left; right
    simp [h]
  rcases joinSep_mem_factor ". " _ _ hmem with ⟨a, b, hab⟩
  have hdata : (recomposeParts tsub tact tset tobjs tcols tmood odet).data =
      a ++ ("mood: ".data ++ (tmood.data ++ b)) := by
    show (joinSep ". " _).data = _
    rw [hab, String.data_append]
    simp
  constructor
  · show occursIn "mood: ".data _ = true
    rw [hdata]
    exact occursIn_affix _ _ _
  · intro hc
    have hnil : (recomposeParts tsub tact tset tobjs tcols tmood odet).data = [] := by
      rw [hc]
    rw [hdata] at hnil
    simp at hnil

/-! ### Band-wise divergence of the rewrite functions -/

/-- Divergence of the spatial rewrite from its input, band by band. -/
theorem levS_spatial (f : ℚ) (s : String) :
    levS s (transform_spatial_dimension f s) =
      if s = "" then 0
      else if f < 0.2 then 0
      else if f < 0.4 then 22
      else if f < 0.6 then 41
      else if f < 0.8 then 50
      else 78 := by
  unfold transform_spatial_dimension
  split_ifs <;> simp only [levS_self, levS_append_right] <;> decide

set_option maxRecDepth 8000 in
/-- Divergence of the emotional rewrite from its input, band by band
(an empty mood is first defaulted to `"neutral"`, 7 characters). -/
theorem levS_emotional (f : ℚ) (m : String) :
    levS m (transform_emotional_dimension f m) =
      (if m = "" then 7 else 0) +
      (if f < 0.2 then 0
       else if f < 0.4 then 31
       else if f < 0.6 then 60
       else if f < 0.8 then 137
       else 161) := by
  by_cases hm : m = ""
  · subst hm
    simp only [transform_emotional_dimension, if_pos rfl]
    split_ifs <;> decide
  · simp only [transform_emotional_dimension, if_neg hm]
    split_ifs <;> simp only [levS_self, levS_append_right, if_neg hm] <;> decide

/-- Divergence of the per-object material rewrite from its input. -/
theorem levS_objectOne (f : ℚ) (obj : String) :
    levS obj (objectOne f obj) =
      if f < 0.3 then 0
      else if f < 0.6 then 30
      else if f < 0.8 then 42
      else 44 := by
  unfold objectOne
  split_ifs <;>
    simp only [levS_self, levS_append_right, levS_affix] <;> decide

/-- The emotional rewrite never returns an empty string (the mood is
defaulted to `"neutral"` when empty, and every band output keeps the mood
as a left factor). -/
theorem transform_emotional_ne_empty (f : ℚ) (m : String) :
    transform_emotional_dimension f m ≠ "" := by
  unfold transform_emotional_dimension
  by_cases hm : m = ""
  · simp only [if_pos hm]
    split_ifs <;> decide
  · simp only [if_neg hm]
    split_ifs <;> first
      | exact hm
      | exact strAppend_ne_empty_left _ _ hm

/-- Per-object rewrite depends on `f` only through its bands at
0.3, 0.6, 0.8. -/
theorem objectOne_const (f g : ℚ) (x : String)
    (h3 : f < 0.3 ↔ g < 0.3) (h6 : f < 0.6 ↔ g < 0.6)
    (h8 : f < 0.8 ↔ g < 0.8) : objectOne f x = objectOne g x := by
  unfold objectOne
  split_ifs <;> first | rfl | tauto

/-- Per-color rewrite depends on `f` only through its bands at
0.3, 0.5, 0.7. -/
theorem chromaticOne_const (f g : ℚ) (x : String)
    (h3 : f < 0.3 ↔ g < 0.3) (h5 : f < 0.5 ↔ g < 0.5)
    (h7 : f < 0.7 ↔ g < 0.7) : chromaticOne f x = chromaticOne g x := by
  unfold chromaticOne
  split_ifs <;> first | rfl | tauto

/-! ### Claim theorems -/

/-- C5: for every integer intensity `n` the pipeline-level constructor
never raises; the stored intensity is `n` clamped to `[0, 10]` and the
stored intensity factor is exactly the clamped intensity divided by 10. -/
theorem C5_constructor_clamps (character_name core_worldview : String) (n : ℤ) :
    mkContinuousDeformationOperator character_name core_worldview (.int n) =
      .ok ⟨character_name, core_worldview, max 0 (min 10 n),
        ((max 0 (min 10 n) : ℤ) : ℚ) / 10⟩ := by
  have hcl : clampIntensity n = max 0 (min 10 n) := by
    unfold clampIntensity
    split_ifs <;> omega
  simp [mkContinuousDeformationOperator, validate_intensity, Except.map, hcl]

/-- C9: a non-integer intensity passed to the pipeline-level operator
constructor raises a `TypeError` (no clamping or coercion), while every
integer intensity constructs successfully. -/
theorem C9_non_integer_type_error :
    (∀ r : String, mkEndoraOperator (.nonInt r) =
        .error (.typeError ("Intensity must be int, got " ++ r))) ∧
    (∀ n : ℤ, isOkB (mkEndoraOperator (.int n)) = true) :=
  ⟨fun _ => rfl, fun _ => rfl⟩

/-- C6: the strict-validation entry point returns normally exactly when the
intensity is an integer inside `[0, 10]`; otherwise it raises a
`ValueError` and produces no response object. -/
theorem C6_strict_validation (base_prompt : String) (intensity : PyVal)
    (include_details : Bool) :
    isOkB (enhance_prompt_with_endora base_prompt intensity include_details) =
      intensityAccepted intensity ∧
    isValueErrorB (enhance_prompt_with_endora base_prompt intensity include_details) =
      !(intensityAccepted intensity) := by
  cases intensity with
  | nonInt r => exact ⟨rfl, rfl⟩
  | int n =>
    by_cases h : n < 0 ∨ n > 10
    · have hacc : intensityAccepted (.int n) = false := by
        simp only [intensityAccepted, decide_eq_false_iff_not]
        omega
      rw [hacc]
      constructor <;>
        simp [enhance_prompt_with_endora, if_pos h, isOkB, isValueErrorB]
    · have hacc : intensityAccepted (.int n) = true := by
        simp only [intensityAccepted, decide_eq_true_eq]
        omega
      rw [hacc]
      constructor <;>
        simp [enhance_prompt_with_endora, if_neg h, isOkB, isValueErrorB]

/-- C7: at intensity factor 0.7, the chromatic rewrite of
`["red", "blue"]` appends the `" composed with intention"` suffix to the
already-transformed last element only; the first element carries no such
suffix. -/
theorem C7_chromatic_asymmetry :
    transform_chromatic_dimension (7 / 10 : ℚ) ["red", "blue"] =
      ["saturated deep jewel red",
       "saturated sapphire blue composed with intention"] ∧
    strEndsWith "saturated sapphire blue composed with intention"
      " composed with intention" = true ∧
    strEndsWith "saturated deep jewel red" " composed with intention" = false := by
  refine ⟨?_, by decide, by decide⟩
  norm_num [transform_chromatic_dimension, chromaticOne]
  decide

set_option maxRecDepth 40000 in
/-- C2 (code bug): at intensity 0 the operator does not return
`"a coffee cup"` unchanged — the recomposition always appends the mood
segment, so the output is `"a coffee cup. mood: neutral"`, although the
code's own intensity table documents intensity 0 as "No transformation -
original prompt unchanged". -/
theorem C2_intensity_zero_not_identity :
    (endoraApply 0 "a coffee cup").enhanced_prompt = "a coffee cup. mood: neutral" ∧
    (endoraApply 0 "a coffee cup").enhanced_prompt ≠ "a coffee cup" ∧
    get_endora_intensity_description 0 =
      "No transformation - original prompt unchanged" := by
  have heval : (endoraApply 0 "a coffee cup").enhanced_prompt =
      "a coffee cup. mood: neutral" := by
    norm_num [endoraApply, EndoraOperator.apply, endoraOperatorOfInt, clampIntensity,
      transform_material_dimension, transform_temporal_dimension,
      transform_spatial_dimension, transform_material_objects,
      transform_chromatic_dimension, transform_emotional_dimension]
    decide
  refine ⟨heval, ?_, by decide⟩
  rw [heval]
  decide

set_option maxRecDepth 40000 in
/-- C3 counterexample: applying the operator to the empty prompt does not
produce the empty string (the mood segment is always emitted). -/
theorem C3_counterexample : ¬ ((endoraApply 0 "").enhanced_prompt = "") := by
  norm_num [endoraApply, EndoraOperator.apply, endoraOperatorOfInt, clampIntensity,
    transform_material_dimension, transform_temporal_dimension,
    transform_spatial_dimension, transform_material_objects,
    transform_chromatic_dimension, transform_emotional_dimension]
  decide

set_option maxRecDepth 40000 in
/-- C3 (amended): decomposing `""` yields all-empty slots with mood
`"neutral"` and no error, but recomposing that decomposition yields the
mood segment `"mood: neutral"` (at intensity 0), not `""`. -/
theorem C3_amended_empty_prompt :
    PromptParser.parse "" =
      { base_prompt := "", subject := "", action := "", setting := "",
        objects := [], colors := [], mood := "neutral", other_details := "" } ∧
    (endoraApply 0 "").enhanced_prompt = "mood: neutral" := by
  refine ⟨by decide, ?_⟩
  norm_num [endoraApply, EndoraOperator.apply, endoraOperatorOfInt, clampIntensity,
    transform_material_dimension, transform_temporal_dimension,
    transform_spatial_dimension, transform_material_objects,
    transform_chromatic_dimension, transform_emotional_dimension]
  decide

/-- C1 counterexample: the objects-material and chromatic rewrites are not
constant on the five claimed bands — 0.2 and 0.3 lie in the same claimed
band `[0.2, 0.4)` yet rewrite `["cup"]` differently, and 0.6 and 0.7 lie in
the same claimed band `[0.6, 0.8)` yet rewrite `["red"]` differently. -/
theorem C1_counterexample :
    (¬ ((0.2 : ℚ) < 0.2) ∧ (0.2 : ℚ) < 0.4 ∧ ¬ ((0.3 : ℚ) < 0.2) ∧ (0.3 : ℚ) < 0.4 ∧
      ¬ ((0.6 : ℚ) < 0.6) ∧ (0.6 : ℚ) < 0.8 ∧ ¬ ((0.7 : ℚ) < 0.6) ∧ (0.7 : ℚ) < 0.8) ∧
    transform_material_objects (0.2 : ℚ) ["cup"] ≠
      transform_material_objects (0.3 : ℚ) ["cup"] ∧
    transform_chromatic_dimension (0.6 : ℚ) ["red"] ≠
      transform_chromatic_dimension (0.7 : ℚ) ["red"] := by
  refine ⟨by norm_num, ?_, ?_⟩
  · norm_num [transform_material_objects, objectOne]
    decide
  · norm_num [transform_chromatic_dimension, chromaticOne]
    decide

/-- C1 (amended): the subject-material, spatial, temporal and emotional
rewrites are constant on the five bands with boundaries 0.2, 0.4, 0.6, 0.8;
the objects-material rewrite is constant on the bands with boundaries
0.3, 0.6, 0.8; and the chromatic rewrite is constant on the bands with
boundaries 0.3, 0.4, 0.5, 0.6, 0.7. -/
theorem C1_amended_band_constancy :
    (∀ (f g : ℚ) (subject : String),
        (f < 0.2 ↔ g < 0.2) → (f < 0.4 ↔ g < 0.4) →
        (f < 0.6 ↔ g < 0.6) → (f < 0.8 ↔ g < 0.8) →
        transform_material_dimension f subject =
          transform_material_dimension g subject) ∧
    (∀ (f g : ℚ) (setting : String),
        (f < 0.2 ↔ g < 0.2) → (f < 0.4 ↔ g < 0.4) →
        (f < 0.6 ↔ g < 0.6) → (f < 0.8 ↔ g < 0.8) →
        transform_spatial_dimension f setting =
          transform_spatial_dimension g setting) ∧
    (∀ (f g : ℚ) (action : String),
        (f < 0.2 ↔ g < 0.2) → (f < 0.4 ↔ g < 0.4) →
        (f < 0.6 ↔ g < 0.6) → (f < 0.8 ↔ g < 0.8) →
        transform_temporal_dimension f action =
          transform_temporal_dimension g action) ∧
    (∀ (f g : ℚ) (mood : String),
        (f < 0.2 ↔ g < 0.2) → (f < 0.4 ↔ g < 0.4) →
        (f < 0.6 ↔ g < 0.6) → (f < 0.8 ↔ g < 0.8) →
        transform_emotional_dimension f mood =
          transform_emotional_dimension g mood) ∧
    (∀ (f g : ℚ) (objects : List String),
        (f < 0.3 ↔ g < 0.3) → (f < 0.6 ↔ g < 0.6) → (f < 0.8 ↔ g < 0.8) →
        transform_material_objects f objects =
          transform_material_objects g objects) ∧
    (∀ (f g : ℚ) (colors : List String),
        (f < 0.3 ↔ g < 0.3) → (f < 0.4 ↔ g < 0.4) → (f < 0.5 ↔ g < 0.5) →
        (f < 0.6 ↔ g < 0.6) → (f < 0.7 ↔ g < 0.7) →
        transform_chromatic_dimension f colors =
          transform_chromatic_dimension g colors) := by
  refine ⟨?_, ?_, ?_, ?_, ?_, ?_⟩
  · intro f g s h2 h4 h6 h8
    unfold transform_material_dimension
    exact if_congr Iff.rfl rfl (if_congr h2 rfl (if_congr h4 rfl
      (if_congr h6 rfl (if_congr h8 rfl rfl))))
  · intro f g s h2 h4 h6 h8
    unfold transform_spatial_dimension
    exact if_congr Iff.rfl rfl (if_congr h2 rfl (if_congr h4 rfl
      (if_congr h6 rfl (if_congr h8 rfl rfl))))
  · intro f g s h2 h4 h6 h8
    unfold transform_temporal_dimension
    exact if_congr Iff.rfl rfl (if_congr h2 rfl (if_congr h4 rfl
      (if_congr h6 rfl (if_congr h8 rfl rfl))))
  · intro f g m h2 h4 h6 h8
    simp only [transform_emotional_dimension]
    exact if_congr h2 rfl (if_congr h4 rfl (if_congr h6 rfl
      (if_congr h8 rfl rfl)))
  · intro f g objs h3 h6 h8
    by_cases hobjs : objs = []
    · simp [transform_material_objects, hobjs]
    · simp only [transform_material_objects, if_neg hobjs]
      exact List.map_congr_left fun x _ => objectOne_const f g x h3 h6 h8
  · intro f g cs h3 h4 h5 h6 h7
    have h06 : ((0.6 : ℚ) ≤ f ↔ (0.6 : ℚ) ≤ g) := by
      simpa [not_lt] using not_congr h6
    by_cases hcs : cs = []
    · simp only [transform_chromatic_dimension, if_pos hcs]
      exact if_congr h4 rfl (if_congr h7 rfl rfl)
    · have hmap : cs.map (chromaticOne f) = cs.map (chromaticOne g) :=
        List.map_congr_left fun x _ => chromaticOne_const f g x h3 h5 h7
      simp only [transform_chromatic_dimension, if_neg hcs]
      rw [hmap]
      exact if_congr (and_congr h06 Iff.rfl) rfl rfl

/-- C1 witness: the amended band constancy applied at sample same-band
factor pairs for each rewrite. -/
theorem C1_amended_band_constancy_witness :
    transform_material_dimension (0.25 : ℚ) "a cat" =
      transform_material_dimension (0.3 : ℚ) "a cat" ∧
    transform_spatial_dimension (0.25 : ℚ) "beach" =
      transform_spatial_dimension (0.3 : ℚ) "beach" ∧
    transform_temporal_dimension (0.25 : ℚ) "walking" =
      transform_temporal_dimension (0.3 : ℚ) "walking" ∧
    transform_emotional_dimension (0.25 : ℚ) "calm" =
      transform_emotional_dimension (0.3 : ℚ) "calm" ∧
    transform_material_objects (0.3 : ℚ) ["cup"] =
      transform_material_objects (0.5 : ℚ) ["cup"] ∧
    transform_chromatic_dimension (0.7 : ℚ) ["red"] =
      transform_chromatic_dimension (0.9 : ℚ) ["red"] :=
  ⟨C1_amended_band_constancy.1 _ _ _ (by norm_num) (by norm_num)
      (by norm_num) (by norm_num),
   C1_amended_band_constancy.2.1 _ _ _ (by norm_num) (by norm_num)
      (by norm_num) (by norm_num),
   C1_amended_band_constancy.2.2.1 _ _ _ (by norm_num) (by norm_num)
      (by norm_num) (by norm_num),
   C1_amended_band_constancy.2.2.2.1 _ _ _ (by norm_num) (by norm_num)
      (by norm_num) (by norm_num),
   C1_amended_band_constancy.2.2.2.2.1 _ _ _ (by norm_num) (by norm_num)
      (by norm_num),
   C1_amended_band_constancy.2.2.2.2.2 _ _ _ (by norm_num) (by norm_num)
      (by norm_num) (by norm_num) (by norm_num)⟩

set_option maxRecDepth 40000 in
/-- C4 counterexample: the edit distance from the untransformed slot value
is not monotone in intensity — it drops from 47 to 46 for the
subject-material rewrite between intensities 5 and 6, from 67 to 62 for the
temporal rewrite between intensities 6 and 8, and from 19 to 11 for the
per-color chromatic rewrite between intensities 4 and 5. -/
theorem C4_counterexample :
    levS "cup" (transform_material_dimension (0.6 : ℚ) "cup") <
      levS "cup" (transform_material_dimension (0.5 : ℚ) "cup") ∧
    levS "walking" (transform_temporal_dimension (0.8 : ℚ) "walking") <
      levS "walking" (transform_temporal_dimension (0.6 : ℚ) "walking") ∧
    levS "red" (chromaticOne (0.5 : ℚ) "red") <
      levS "red" (chromaticOne (0.4 : ℚ) "red") := by
  refine ⟨?_, ?_, ?_⟩
  · norm_num [transform_material_dimension]
    decide
  · norm_num [transform_temporal_dimension]
    decide
  · norm_num [chromaticOne]
    decide

set_option maxHeartbeats 1600000 in
/-- C4 (amended): monotone departure holds for the spatial, emotional and
(element-wise) objects-material rewrites: for a fixed slot value and
intensities `a < b ≤ 10`, the edit distance of the rewritten value from the
untransformed value at `b` is at least that at `a`.  (It fails for the
subject-material, temporal and chromatic rewrites.) -/
theorem C4_amended_monotone_departure :
    (∀ (s : String) (a b : ℕ), a < b → b ≤ 10 →
        levS s (transform_spatial_dimension ((a : ℚ) / 10) s) ≤
          levS s (transform_spatial_dimension ((b : ℚ) / 10) s)) ∧
    (∀ (m : String) (a b : ℕ), a < b → b ≤ 10 →
        levS m (transform_emotional_dimension ((a : ℚ) / 10) m) ≤
          levS m (transform_emotional_dimension ((b : ℚ) / 10) m)) ∧
    (∀ (obj : String) (a b : ℕ), a < b → b ≤ 10 →
        levS obj (objectOne ((a : ℚ) / 10) obj) ≤
          levS obj (objectOne ((b : ℚ) / 10) obj)) := by
  have hle : ∀ a b : ℕ, a < b → ((a : ℚ) / 10 ≤ (b : ℚ) / 10) := by
    intro a b hab
    have hq : (a : ℚ) ≤ (b : ℚ) := by exact_mod_cast hab.le
    linarith
  refine ⟨?_, ?_, ?_⟩
  · intro s a b hab _
    have h := hle a b hab
    rw [levS_spatial, levS_spatial]
    split_ifs <;> first | omega | (exfalso; linarith)
  · intro m a b hab _
    have h := hle a b hab
    rw [levS_emotional, levS_emotional]
    split_ifs <;> first | omega | (exfalso; linarith)
  · intro obj a b hab _
    have h := hle a b hab
    rw [levS_objectOne, levS_objectOne]
    split_ifs <;> first | omega | (exfalso; linarith)


/-- C4 witness: the amended monotone departure applied at intensities
3 and 7 on sample slot values. -/
theorem C4_amended_monotone_departure_witness :
    levS "beach" (transform_spatial_dimension (((3 : ℕ) : ℚ) / 10) "beach") ≤
      levS "beach" (transform_spatial_dimension (((7 : ℕ) : ℚ) / 10) "beach") ∧
    levS "calm" (transform_emotional_dimension (((3 : ℕ) : ℚ) / 10) "calm") ≤
      levS "calm" (transform_emotional_dimension (((7 : ℕ) : ℚ) / 10) "calm") ∧
    levS "cup" (objectOne (((3 : ℕ) : ℚ) / 10) "cup") ≤
      levS "cup" (objectOne (((7 : ℕ) : ℚ) / 10) "cup") :=
  ⟨C4_amended_monotone_departure.1 "beach" 3 7 (by decide) (by decide),
   C4_amended_monotone_departure.2.1 "calm" 3 7 (by decide) (by decide),
   C4_amended_monotone_departure.2.2 "cup" 3 7 (by decide) (by decide)⟩

/-- C8: for any transformed prompt whose details carry a
`dimensions_applied` record, the coherence report's `is_coherent` is false
exactly when the applied-dimensions set differs from the five expected
dimensions or `intensity_applied` lies outside `[0, 10]`; the
subject-recognizability check only warns and the unified-sensibility check
only adds a pass, so neither can flip `is_coherent`. -/
theorem C8_coherence_hard_checks (result : TransformedPrompt) (d : List String)
    (h : result.transformation_details.dimensions_applied = some d) :
    (validate_endora_coherence result).is_coherent = false ↔
      (setEqB d expected_dimensions = false ∨
        result.intensity_applied < 0 ∨ 10 < result.intensity_applied) := by
  obtain ⟨ep, td, ia⟩ := result
  obtain ⟨ch, it, fa, oc, tc, da, us⟩ := td
  simp only at h
  subst h
  simp only [validate_endora_coherence]
  cases oc <;> cases tc <;> split_ifs <;>
    simp_all [apply_ite ValidationResult.is_coherent] <;> omega

/-- C8 witness: the hard-check characterisation applied to a concrete
transformed prompt carrying the five dimensions and the out-of-range
intensity 11. -/
theorem C8_coherence_hard_checks_witness :
    (validate_endora_coherence
        ⟨"x", ⟨"Endora", 11, 1, none, none,
          some ["material", "spatial", "temporal", "chromatic", "emotional"],
          none⟩, 11⟩).is_coherent = false ↔
      (setEqB ["material", "spatial", "temporal", "chromatic", "emotional"]
          expected_dimensions = false ∨
        (11 : ℤ) < 0 ∨ 10 < (11 : ℤ)) :=
  C8_coherence_hard_checks _ _ rfl

/-- C10: for every prompt and every integer intensity, the enhanced prompt
contains a `"mood: "` segment and is therefore never empty: the extracted
mood defaults to `"neutral"`, the emotional rewrite never returns an empty
string, and the recomposition always includes the non-empty mood part. -/
theorem C10_mood_segment_always_present (n : ℤ) (prompt : String) :
    strIn "mood: " (endoraApply n prompt).enhanced_prompt = true ∧
    (endoraApply n prompt).enhanced_prompt ≠ "" :=
  recomposeParts_mood _ _ _ _ _ _ _
    (transform_emotional_ne_empty (endoraOperatorOfInt n).intensity_factor
      (PromptParser.parse prompt).mood)

end SCS
